import Mathlib

/-!
Verification of the audio ingestion pipeline in `audio_processing.py`.

The file shallowly embeds the repository's functions:
* `classify_audio` — the pure classifier (duration, loudness) → label;
* `insert_into_bigquery` — the upsert on the table store, modelled as a
  transformation on an explicit list of rows;
* `find_audio_links` — link discovery, modelled on the HTTP status code and
  the list of anchor `href` strings of the fetched page;
* the module-level driver loop — modelled as a state-passing loop over the
  discovered links, with Python's positional-call arity checked at each call
  site (a call with too few positional arguments raises a `TypeError` before
  the callee's body runs).

Python floats are modelled by `PyFloat`: an exact rational, the two
infinities, or NaN, with IEEE comparison semantics (every comparison with
NaN is false).  The loudness values occurring in the claims are decimal
fractions, represented exactly by rationals.

Definitions come first, then the theorems about them.
-/

/-! ## Definitions: Python floats and `classify_audio` -/

/-- Model of a Python float: a finite value (exact rational), an infinity,
or NaN. -/
inductive PyFloat where
  | finite (q : ℚ)
  | posInf
  | negInf
  | nan
deriving DecidableEq

/-- Strict `<` on Python floats: any comparison involving NaN is false;
`-inf` is below every non-NaN value, `+inf` above. -/
def PyFloat.lt : PyFloat → PyFloat → Bool
  | .nan, _ => false
  | _, .nan => false
  | .negInf, .negInf => false
  | .negInf, _ => true
  | _, .negInf => false
  | .posInf, _ => false
  | _, .posInf => true
  | .finite q, .finite r => q < r

/-- Non-strict `<=` on Python floats: any comparison involving NaN is
false; otherwise the extended-real order. -/
def PyFloat.le : PyFloat → PyFloat → Bool
  | .nan, _ => false
  | _, .nan => false
  | .negInf, _ => true
  | _, .negInf => false
  | _, .posInf => true
  | .posInf, _ => false
  | .finite q, .finite r => q ≤ r

/-- Embedding of `classify_audio(duration_ms, loudness)`:
`if duration_ms < 60000 and loudness > -20: 'High Energy'
 elif duration_ms >= 60000 and loudness <= -20: 'Low Energy'
 else: 'Medium Energy'`.
Python's `loudness > -20` is the float comparison `-20 < loudness`. -/
def classify_audio (duration_ms : Int) (loudness : PyFloat) : String :=
  if duration_ms < 60000 ∧ PyFloat.lt (PyFloat.finite (-20)) loudness then
    "High Energy"
  else if duration_ms ≥ 60000 ∧ PyFloat.le loudness (PyFloat.finite (-20)) then
    "Low Energy"
  else
    "Medium Energy"

/-! ## Definitions: the table store and `insert_into_bigquery` -/

/-- One row of the BigQuery table, with the five-field schema
`gcp_url, file_name, duration_ms, loudness, classification` declared in
`insert_into_bigquery`.  `gcp_url` is the key. -/
structure AudioRecord where
  gcp_url : String
  file_name : String
  duration_ms : Int
  loudness : PyFloat
  classification : String
deriving DecidableEq

/-- The table store: the list of rows of the target table. -/
abbrev Table := List AudioRecord

/-- `SELECT COUNT(*) FROM table WHERE gcp_url = @gcp_url`. -/
def countRows (t : Table) (u : String) : Nat :=
  (t.filter (fun r => r.gcp_url == u)).length

/-- Effect of the SQL `UPDATE ... SET file_name = @file_name, duration_ms =
@duration_ms, loudness = @loudness, classification = @classification WHERE
gcp_url = @gcp_url` on one row: rows matching the key get all non-key
fields overwritten, other rows are untouched. -/
def updateRow (rec r : AudioRecord) : AudioRecord :=
  if r.gcp_url == rec.gcp_url then
    { r with
      file_name := rec.file_name
      duration_ms := rec.duration_ms
      loudness := rec.loudness
      classification := rec.classification }
  else r

/-- Embedding of the table-state effect of `insert_into_bigquery`: count the
rows whose `gcp_url` equals the record's, then either `INSERT` the full
record (count zero) or `UPDATE` the non-key fields of every matching row
(count nonzero). -/
def insert_into_bigquery (t : Table) (rec : AudioRecord) : Table :=
  if countRows t rec.gcp_url == 0 then
    t ++ [rec]
  else
    t.map (updateRow rec)

/-- The invariant of claim C2: at most one row per distinct locator. -/
def atMostOnePerLocator (t : Table) : Prop :=
  ∀ u : String, countRows t u ≤ 1

/-! ## Definitions: link discovery, `find_audio_links` -/

/-- ASCII lowercasing of one character, the effect of Python's
`str.lower()` on the characters occurring in hrefs and extensions. -/
def pyLowerChar (c : Char) : Char :=
  if 'A' ≤ c ∧ c ≤ 'Z' then Char.ofNat (c.toNat + 32) else c

/-- `href.lower()`. -/
def pyLower (s : String) : String := ⟨s.data.map pyLowerChar⟩

/-- `href.lower().endswith(ext)`: the (already lowercase) extension is a
suffix of the lowercased href. -/
def endsWithExt (href ext : String) : Bool :=
  ext.data.isSuffixOf (pyLower href).data

/-- `audio_extensions = ['.mp3', '.wav', '.ogg', '.flac', '.aac']`. -/
def audio_extensions : List String := [".mp3", ".wav", ".ogg", ".flac", ".aac"]

/-- The filter of the list comprehension in `find_audio_links`:
`any(link['href'].lower().endswith(ext) for ext in audio_extensions)`. -/
def isAudioLink (href : String) : Bool :=
  audio_extensions.any (fun ext => endsWithExt href ext)

/-- Embedding of `find_audio_links`.  The HTTP response is modelled by its
status code and the list of anchor `href` strings of the fetched document,
in document order.  On status 200 the hrefs are filtered by extension and
de-duplicated (`set(audio_links)`); on any other status the function
reports the failure and returns the empty list. -/
def find_audio_links (status_code : Nat) (hrefs : List String) :
    List String :=
  if status_code == 200 then
    ((hrefs.filter isAudioLink).dedup : List String)
  else
    []

/-! ## Definitions: the module-level driver loop -/

/-- The per-item error taxonomy of the pipeline, plus Python's `TypeError`
(raised at a call site that supplies too few positional arguments, before
the callee's body runs), tagged with the callee's name. -/
inductive PyError where
  | typeError (fname : String)
  | transferError
  | decodeError
  | storageError
  | storeError
deriving DecidableEq

/-- The positional parameters of `def upload_to_gcp_storage(key_file_path,
bucket_name, local_file_path, remote_file_name)`. -/
def upload_to_gcp_storage_params : List String :=
  ["key_file_path", "bucket_name", "local_file_path", "remote_file_name"]

/-- The positional parameters of `def insert_into_bigquery(key_file_path,
table_id, gcp_url, file_name, duration_ms, loudness, classification)`. -/
def insert_into_bigquery_params : List String :=
  ["key_file_path", "table_id", "gcp_url", "file_name", "duration_ms",
   "loudness", "classification"]

/-- Python positional-call semantics: a call whose number of positional
arguments differs from the callee's required parameter count raises
`TypeError` at the call site. -/
def checkCall (fname : String) (params : List String) (nargs : Nat) :
    Option PyError :=
  if nargs = params.length then none else some (PyError.typeError fname)

/-- `os.path.basename`: the part of the string after the last slash. -/
def basename (s : String) : String :=
  ⟨(s.data.reverse.takeWhile (fun c => c ≠ '/')).reverse⟩

/-- `bucket_name = 'adegoju_bucket'`. -/
def bucket_name : String := "adegoju_bucket"

/-- `blob.public_url` for an object of a bucket. -/
def public_url (bucket remote_file_name : String) : String :=
  "https://storage.googleapis.com/" ++ bucket ++ "/" ++ remote_file_name

/-- `open(path, 'wb')`: the path now exists (re-creating an existing path
truncates it, leaving it existing). -/
def insertFile (f : String) (fs : List String) : List String :=
  if fs.contains f then fs else f :: fs

/-- `os.remove(path)`. -/
def removeFile (f : String) (fs : List String) : List String := fs.erase f

/-- The behaviour of the external world for one item: whether
`requests.get(each_link)` returns (rather than raising), and the decode
result of `AudioSegment.from_file` (`none` models a `DecodeError`). -/
structure ItemWorld where
  downloadOk : Bool
  metadata : Option (Int × PyFloat)

/-- Observable pipeline state: the local files on disk, the object names
uploaded to the storage bucket, and the table-store rows. -/
structure PipelineState where
  files : List String
  objects : List String
  table : Table

/-- Embedding of one iteration of the module-level `for each_link in
audio_links` loop, following the source statement by statement: download,
derive `file_name` and `local_file_path`, write the temporary file, call
`upload_to_gcp_storage` with THREE positional arguments, extract metadata,
classify, call `insert_into_bigquery` with FIVE positional arguments,
remove the temporary file.  The first raised error stops the body; the
removal of the temporary file runs only after all earlier statements
succeed (there is no `try`/`finally` in the source). -/
def runItem (w : ItemWorld) (each_link : String) (st : PipelineState) :
    PipelineState × Option PyError :=
  if w.downloadOk then
    let file_name := basename each_link
    let local_file_path := "temporary_" ++ file_name
    let st1 := { st with files := insertFile local_file_path st.files }
    match checkCall "upload_to_gcp_storage" upload_to_gcp_storage_params 3 with
    | some e => (st1, some e)
    | none =>
      let gcp_url := public_url bucket_name file_name
      let st2 := { st1 with objects := insertFile file_name st1.objects }
      match w.metadata with
      | none => (st2, some PyError.decodeError)
      | some md =>
        let classification := classify_audio md.1 md.2
        match checkCall "insert_into_bigquery" insert_into_bigquery_params 5 with
        | some e => (st2, some e)
        | none =>
          let st3 := { st2 with
            table := insert_into_bigquery st2.table
              ⟨gcp_url, file_name, md.1, md.2, classification⟩ }
          ({ st3 with files := removeFile local_file_path st3.files }, none)
  else
    (st, some PyError.transferError)

/-- The driver loop over the discovered links.  There is no `try`/`except`
around the body in the source, so an error raised while processing one
link propagates and ends the whole loop. -/
def runLoop (w : String → ItemWorld) (links : List String)
    (st : PipelineState) : PipelineState × Option PyError :=
  match links with
  | [] => (st, none)
  | l :: rest =>
    match runItem (w l) l st with
    | (st1, none) => runLoop w rest st1
    | (st1, some e) => (st1, some e)

/-! ## Theorems: the classifier (claims C3, C8, C10) -/

/-- Claim C3: `classify_audio` is total and deterministic (it is a Lean
function, so determinism is by construction): for every duration and every
loudness it returns exactly one label of the closed set
`{High Energy, Low Energy, Medium Energy}`, and it satisfies the exact
boundary decision table: `classify(59999, -19.9) = High Energy`,
`classify(60000, -20.0) = Low Energy`, `classify(60000, -19.9) = Medium
Energy`, `classify(59999, -20.0) = Medium Energy`. -/
theorem classify_audio_total_and_boundaries (d : Int) (l : PyFloat) :
    (classify_audio d l = "High Energy" ∨ classify_audio d l = "Low Energy" ∨
      classify_audio d l = "Medium Energy")
    ∧ classify_audio 59999 (PyFloat.finite (-199/10)) = "High Energy"
    ∧ classify_audio 60000 (PyFloat.finite (-20)) = "Low Energy"
    ∧ classify_audio 60000 (PyFloat.finite (-199/10)) = "Medium Energy"
    ∧ classify_audio 59999 (PyFloat.finite (-20)) = "Medium Energy" := by
  refine ⟨?_, ?_, ?_, ?_, ?_⟩
  · unfold classify_audio
    split
    · exact Or.inl rfl
    · split
      · exact Or.inr (Or.inl rfl)
      · exact Or.inr (Or.inr rfl)
  · norm_num [classify_audio, PyFloat.lt, PyFloat.le]
  · norm_num [classify_audio, PyFloat.lt, PyFloat.le]
  · norm_num [classify_audio, PyFloat.lt, PyFloat.le]
  · norm_num [classify_audio, PyFloat.lt, PyFloat.le]

/-- Claim C8: for every duration, a loudness of negative infinity does not
crash the classifier and falls into the `≤ -20` branch: the result is
`Low Energy` when the duration is at least 60000 ms and `Medium Energy`
otherwise, never `High Energy`. -/
theorem classify_audio_negInf (d : Int) :
    classify_audio d PyFloat.negInf =
      (if d ≥ 60000 then "Low Energy" else "Medium Energy")
    ∧ classify_audio d PyFloat.negInf ≠ "High Energy" := by
  have hlt : PyFloat.lt (PyFloat.finite (-20)) PyFloat.negInf = false := rfl
  have hle : PyFloat.le PyFloat.negInf (PyFloat.finite (-20)) = true := rfl
  by_cases h : d ≥ 60000
  · constructor
    · simp [classify_audio, hlt, hle, h, not_lt.mpr h]
    · simp [classify_audio, hlt, hle, h]
  · constructor
    · simp [classify_audio, hlt, hle, h]
    · simp [classify_audio, hlt, hle, h]

/-- Claim C10: for every duration, a NaN loudness selects `Medium Energy`:
both `loudness > -20` and `loudness <= -20` are false for NaN, so neither
the `High Energy` nor the `Low Energy` branch is taken and the function
falls through without crashing. -/
theorem classify_audio_nan (d : Int) :
    PyFloat.lt (PyFloat.finite (-20)) PyFloat.nan = false
    ∧ PyFloat.le PyFloat.nan (PyFloat.finite (-20)) = false
    ∧ classify_audio d PyFloat.nan = "Medium Energy" := by
  have hlt : PyFloat.lt (PyFloat.finite (-20)) PyFloat.nan = false := rfl
  have hle : PyFloat.le PyFloat.nan (PyFloat.finite (-20)) = false := rfl
  refine ⟨hlt, hle, ?_⟩
  simp [classify_audio, hlt, hle]

/-! ## Theorems: the upsert (claims C1, C2) -/

theorem updateRow_gcp_url (rec r : AudioRecord) :
    (updateRow rec r).gcp_url = r.gcp_url := by
  unfold updateRow
  split <;> rfl

theorem countRows_append (t s : Table) (u : String) :
    countRows (t ++ s) u = countRows t u + countRows s u := by
  unfold countRows
  rw [List.filter_append, List.length_append]

theorem countRows_map_updateRow (t : Table) (rec : AudioRecord) (u : String) :
    countRows (t.map (updateRow rec)) u = countRows t u := by
  unfold countRows
  induction t with
  | nil => rfl
  | cons r rs ih =>
    simp only [List.map_cons, List.filter_cons, updateRow_gcp_url]
    by_cases h : (r.gcp_url == u) = true
    · simp [h, ih]
    · simp [h, ih]

/-- If a record's key is absent from the table, every row of the table
fails the key filter, so the `UPDATE` image of the table is the table. -/
theorem map_updateRow_of_absent (t : Table) (rec : AudioRecord)
    (hz : countRows t rec.gcp_url = 0) : t.map (updateRow rec) = t := by
  induction t with
  | nil => rfl
  | cons r rs ih =>
    unfold countRows at hz
    simp only [List.filter_cons] at hz
    by_cases h : (r.gcp_url == rec.gcp_url) = true
    · simp [h] at hz
    · simp only [h] at hz
      simp only [List.map_cons]
      rw [ih hz]
      unfold updateRow
      simp [h]

/-- Claim C1: the upsert first counts rows keyed by the record's locator;
on count zero it inserts the full record, on count at least one it updates
the non-key fields of the matching rows; consequently inserting a record
with locator `L1` into a table without that locator and then upserting a
second record with the same locator leaves exactly one row for `L1`,
carrying the second record's field values. -/
theorem insert_into_bigquery_upsert (t : Table) (r1 r2 : AudioRecord) :
    (countRows t r1.gcp_url = 0 → insert_into_bigquery t r1 = t ++ [r1])
    ∧ (1 ≤ countRows t r1.gcp_url →
        insert_into_bigquery t r1 = t.map (updateRow r1))
    ∧ (countRows t r1.gcp_url = 0 → r2.gcp_url = r1.gcp_url →
        (insert_into_bigquery (insert_into_bigquery t r1) r2).filter
          (fun r => r.gcp_url == r1.gcp_url) = [r2]) := by
  refine ⟨?_, ?_, ?_⟩
  · intro hz
    unfold insert_into_bigquery
    simp [hz]
  · intro h1
    unfold insert_into_bigquery
    have : ¬ countRows t r1.gcp_url = 0 := by omega
    simp [this]
  · intro hz hurl
    have h1 : insert_into_bigquery t r1 = t ++ [r1] := by
      unfold insert_into_bigquery
      simp [hz]
    have hcount : countRows (t ++ [r1]) r2.gcp_url = 1 := by
      rw [hurl, countRows_append, hz]
      unfold countRows
      simp
    have h2 : insert_into_bigquery (t ++ [r1]) r2 =
        (t ++ [r1]).map (updateRow r2) := by
      unfold insert_into_bigquery
      simp [hcount]
    rw [h1, h2, List.map_append]
    have hz2 : countRows t r2.gcp_url = 0 := by rw [hurl]; exact hz
    rw [map_updateRow_of_absent t r2 hz2]
    have hr1 : updateRow r2 r1 = r2 := by
      unfold updateRow
      have hb : (r1.gcp_url == r2.gcp_url) = true := by
        rw [hurl]
        exact beq_self_eq_true r1.gcp_url
      simp only [hb, if_true]
      cases r2 with
      | mk u f d l c => simp_all
    rw [List.filter_append]
    have hleft : t.filter (fun r => r.gcp_url == r1.gcp_url) = [] := by
      have := hz
      unfold countRows at this
      exact List.length_eq_zero.mp this
    rw [hleft]
    simp only [List.map_cons, List.map_nil, List.nil_append]
    rw [hr1]
    simp [hurl]

/-- Witness for C1 at concrete records sharing locator `L1`. -/
theorem insert_into_bigquery_upsert_witness :
    (insert_into_bigquery
        (insert_into_bigquery []
          ⟨"L1", "a.mp3", 30000, PyFloat.finite (-10), "High Energy"⟩)
        ⟨"L1", "a.mp3", 90000, PyFloat.finite (-30), "Low Energy"⟩).filter
      (fun r => r.gcp_url ==
        (⟨"L1", "a.mp3", 30000, PyFloat.finite (-10),
          "High Energy"⟩ : AudioRecord).gcp_url) =
      [⟨"L1", "a.mp3", 90000, PyFloat.finite (-30), "Low Energy"⟩] :=
  (insert_into_bigquery_upsert []
      ⟨"L1", "a.mp3", 30000, PyFloat.finite (-10), "High Energy"⟩
      ⟨"L1", "a.mp3", 90000, PyFloat.finite (-30), "Low Energy"⟩).2.2
    rfl rfl

/-- Claim C2: starting from a table with at most one row per locator, every
upsert preserves that invariant, because it counts the rows with the
record's locator before deciding between `INSERT` and `UPDATE`. -/
theorem insert_into_bigquery_preserves_atMostOne (t : Table)
    (rec : AudioRecord) (h : atMostOnePerLocator t) :
    atMostOnePerLocator (insert_into_bigquery t rec) := by
  intro u
  unfold insert_into_bigquery
  by_cases hz : countRows t rec.gcp_url = 0
  · simp only [hz, beq_self_eq_true, if_true]
    rw [countRows_append]
    by_cases hu : rec.gcp_url = u
    · have : countRows t u = 0 := by rw [← hu]; exact hz
      rw [this]
      unfold countRows
      simp [hu]
    · have : countRows [rec] u = 0 := by
        unfold countRows
        simp [hu]
      rw [this]
      simpa using h u
  · have : (countRows t rec.gcp_url == 0) = false := by
      simpa using hz
    simp only [this, Bool.false_eq_true, if_false]
    rw [countRows_map_updateRow]
    exact h u

/-- Witness for C2: the empty table satisfies the invariant and upserting a
concrete record preserves it. -/
theorem insert_into_bigquery_preserves_atMostOne_witness :
    atMostOnePerLocator
      (insert_into_bigquery []
        ⟨"L2", "b.wav", 90000, PyFloat.finite (-30), "Low Energy"⟩) :=
  insert_into_bigquery_preserves_atMostOne []
    ⟨"L2", "b.wav", 90000, PyFloat.finite (-30), "Low Energy"⟩
    (fun u => by simp [countRows])

/-! ## Theorems: link discovery (claims C6, C7) -/

/-- Claim C6: on a successful fetch, discovery retains exactly the hrefs
ending case-insensitively in one of `.mp3 .wav .ogg .flac .aac`, returns
them without duplicates (set semantics), two identical hrefs `a.mp3` yield
one result, `a.MP3` and `a.mp3` stay two distinct results, and the page
`[x.mp3, y.txt, z.flac]` yields exactly the two links `x.mp3` and
`z.flac`. -/
theorem find_audio_links_filter_dedup :
    (∀ (hrefs : List String) (x : String),
        x ∈ find_audio_links 200 hrefs ↔
          x ∈ hrefs ∧
            (endsWithExt x ".mp3" = true ∨ endsWithExt x ".wav" = true ∨
             endsWithExt x ".ogg" = true ∨ endsWithExt x ".flac" = true ∨
             endsWithExt x ".aac" = true))
    ∧ (∀ hrefs : List String, (find_audio_links 200 hrefs).Nodup)
    ∧ (find_audio_links 200 ["a.mp3", "a.mp3"]).length = 1
    ∧ "a.mp3" ∈ find_audio_links 200 ["a.mp3", "a.mp3"]
    ∧ (find_audio_links 200 ["a.MP3", "a.mp3"]).length = 2
    ∧ (find_audio_links 200 ["x.mp3", "y.txt", "z.flac"]).length = 2
    ∧ "x.mp3" ∈ find_audio_links 200 ["x.mp3", "y.txt", "z.flac"]
    ∧ "z.flac" ∈ find_audio_links 200 ["x.mp3", "y.txt", "z.flac"]
    ∧ "y.txt" ∉ find_audio_links 200 ["x.mp3", "y.txt", "z.flac"] := by
  refine ⟨?_, ?_, by decide, by decide, by decide, by decide, by decide,
    by decide, by decide⟩
  · intro hrefs x
    simp only [find_audio_links, beq_self_eq_true, if_true, List.mem_dedup,
      List.mem_filter, isAudioLink, audio_extensions, List.any_cons,
      List.any_nil, Bool.or_eq_true, Bool.false_eq_true, or_false]
  · intro hrefs
    simp only [find_audio_links, beq_self_eq_true, if_true]
    exact List.nodup_dedup _

/-- Claim C7 counterexample: the code treats only status 200 as success.
Status 204 is 2xx-equivalent, yet with a body holding the link `x.mp3` the
function returns the empty result instead of extracting the link, while
the same body under status 200 yields the link. -/
theorem find_audio_links_2xx_counterexample :
    find_audio_links 204 ["x.mp3"] = []
    ∧ find_audio_links 200 ["x.mp3"] = ["x.mp3"] := by
  constructor
  · rfl
  · decide

/-- Claim C7 (amended): success is exactly HTTP status 200 — link
extraction runs on the body only for status 200; for every other status,
200-series or not, the function returns the empty result. -/
theorem find_audio_links_only_status_200 (status_code : Nat)
    (hrefs : List String) (h : status_code ≠ 200) :
    find_audio_links status_code hrefs = []
    ∧ find_audio_links 200 hrefs = (hrefs.filter isAudioLink).dedup := by
  constructor
  · unfold find_audio_links
    simp [h]
  · rfl

/-- Witness for the amended C7 at status 204. -/
theorem find_audio_links_only_status_200_witness :
    find_audio_links 204 ["y.wav"] = [] :=
  (find_audio_links_only_status_200 204 ["y.wav"] (by decide)).1

/-! ## Theorems: the driver loop (claims C4, C5, C9) -/

/-- When the download returns, the item deterministically raises
`TypeError` at the `upload_to_gcp_storage` call (3 arguments against 4
parameters): the temporary file has been written and nothing else has
happened. -/
theorem runItem_eq_typeError (w : ItemWorld) (l : String)
    (st : PipelineState) (h : w.downloadOk = true) :
    runItem w l st =
      ({ st with files := insertFile ("temporary_" ++ basename l) st.files },
        some (PyError.typeError "upload_to_gcp_storage")) := by
  unfold runItem
  rw [h]
  rfl

theorem mem_insertFile (f : String) (fs : List String) :
    f ∈ insertFile f fs := by
  unfold insertFile
  split
  · next hcon => simp_all
  · exact List.mem_cons_self f fs

/-- Claim C9: the driver loop calls `upload_to_gcp_storage` with three
positional arguments against a four-parameter signature and
`insert_into_bigquery` with five against seven, so processing every item
raises `TypeError` at the upload step, before any object is stored or any
record is persisted: on a non-empty discovery result the loop stops with
that `TypeError`, with the object store and the table store unchanged. -/
theorem driver_arity_mismatch (w : String → ItemWorld) (l : String)
    (links : List String) (st : PipelineState)
    (h : (w l).downloadOk = true) :
    upload_to_gcp_storage_params.length = 4
    ∧ insert_into_bigquery_params.length = 7
    ∧ checkCall "upload_to_gcp_storage" upload_to_gcp_storage_params 3
        = some (PyError.typeError "upload_to_gcp_storage")
    ∧ checkCall "insert_into_bigquery" insert_into_bigquery_params 5
        = some (PyError.typeError "insert_into_bigquery")
    ∧ (runLoop w (l :: links) st).2
        = some (PyError.typeError "upload_to_gcp_storage")
    ∧ (runLoop w (l :: links) st).1.objects = st.objects
    ∧ (runLoop w (l :: links) st).1.table = st.table := by
  have hloop : runLoop w (l :: links) st =
      ({ st with files := insertFile ("temporary_" ++ basename l) st.files },
        some (PyError.typeError "upload_to_gcp_storage")) := by
    unfold runLoop
    rw [runItem_eq_typeError (w l) l st h]
  exact ⟨rfl, rfl, rfl, rfl, by rw [hloop], by rw [hloop], by rw [hloop]⟩

/-- Witness for C9 on a concrete one-link discovery result. -/
theorem driver_arity_mismatch_witness :
    (runLoop (fun _ => ItemWorld.mk true none) ["a.mp3"]
        ⟨[], [], []⟩).2 = some (PyError.typeError "upload_to_gcp_storage") :=
  (driver_arity_mismatch (fun _ => ItemWorld.mk true none) "a.mp3" []
      ⟨[], [], []⟩ rfl).2.2.2.2.1

/-- Claim C4 counterexample: one item's failure aborts the batch.  With
two discovered links, the first item fails (at the `TypeError` raised by
the upload call) and the loop stops: the second link is never processed —
its temporary file is never even created — contradicting the claim that
the orchestrator proceeds to the next discovered resource. -/
theorem driver_no_isolation_counterexample :
    (runLoop (fun _ => ItemWorld.mk true (some (30000, PyFloat.finite (-10))))
        ["a.mp3", "b.mp3"] ⟨[], [], []⟩).2
      = some (PyError.typeError "upload_to_gcp_storage")
    ∧ (runLoop (fun _ => ItemWorld.mk true (some (30000, PyFloat.finite (-10))))
        ["a.mp3", "b.mp3"] ⟨[], [], []⟩).1.files = ["temporary_a.mp3"]
    ∧ "temporary_b.mp3" ∉
        (runLoop (fun _ => ItemWorld.mk true (some (30000, PyFloat.finite (-10))))
          ["a.mp3", "b.mp3"] ⟨[], [], []⟩).1.files := by
  refine ⟨rfl, rfl, ?_⟩
  decide

/-- Claim C4 (amended): per-item errors are not isolated.  The loop body
has no `try`/`except`, so whenever processing of the first link raises any
error, the loop's result is exactly that item's failure state — the
remaining discovered resources are never processed. -/
theorem driver_failure_aborts_batch (w : String → ItemWorld) (l : String)
    (rest : List String) (st : PipelineState) (e : PyError)
    (h : (runItem (w l) l st).2 = some e) :
    runLoop w (l :: rest) st = ((runItem (w l) l st).1, some e) := by
  unfold runLoop
  rcases hq : runItem (w l) l st with ⟨st1, res⟩
  rw [hq] at h
  obtain rfl : res = some e := h
  rfl

/-- Witness for the amended C4 on two concrete links. -/
theorem driver_failure_aborts_batch_witness :
    runLoop (fun _ => ItemWorld.mk true none) ["a.mp3", "b.mp3"] ⟨[], [], []⟩
      = ((runItem (ItemWorld.mk true none) "a.mp3" ⟨[], [], []⟩).1,
          some (PyError.typeError "upload_to_gcp_storage")) :=
  driver_failure_aborts_batch (fun _ => ItemWorld.mk true none) "a.mp3"
    ["b.mp3"] ⟨[], [], []⟩ (PyError.typeError "upload_to_gcp_storage")
    (by decide)

/-- Claim C5 counterexample: the temporary file is not removed on every
exit path.  A concrete item that fails mid-processing finishes with its
temporary file still existing, contradicting the claimed cleanup
guarantee. -/
theorem driver_tempfile_counterexample :
    ((runLoop (fun _ => ItemWorld.mk true none) ["a.mp3"]
        ⟨[], [], []⟩).2).isSome = true
    ∧ "temporary_a.mp3" ∈
        (runLoop (fun _ => ItemWorld.mk true none) ["a.mp3"]
          ⟨[], [], []⟩).1.files := by
  refine ⟨rfl, ?_⟩
  decide

/-- Claim C5 (amended): `os.remove` is the last statement of the loop body
with no `try`/`finally`, so the temporary file is removed only when every
stage of the item succeeds; an item that fails after writing the file
leaves it on disk — in the current code every item whose download returns
fails at the upload call and its temporary file remains. -/
theorem driver_tempfile_left_on_failure (w : String → ItemWorld)
    (l : String) (st : PipelineState) (h : (w l).downloadOk = true) :
    (runItem (w l) l st).2 ≠ none
    ∧ ("temporary_" ++ basename l) ∈ (runItem (w l) l st).1.files := by
  rw [runItem_eq_typeError (w l) l st h]
  exact ⟨fun hc => Option.noConfusion hc, mem_insertFile _ _⟩

/-- Witness for the amended C5 on a concrete link. -/
theorem driver_tempfile_left_on_failure_witness :
    ("temporary_" ++ basename "a.mp3") ∈
      (runItem (ItemWorld.mk true none) "a.mp3" ⟨[], [], []⟩).1.files :=
  (driver_tempfile_left_on_failure (fun _ => ItemWorld.mk true none)
      "a.mp3" ⟨[], [], []⟩ rfl).2
